import Mathlib

/-!
Verification of the `VideoPlayer` widget (`src/video_player.rs`) of the
`iced_video_player` crate: a shallow embedding of its layout, draw and
event-tick logic, together with proofs of the specified properties.

Geometry is modelled over `ℚ` (exact arithmetic standing in for the `f32`
computations of the source, whose claims are algebraic).  Times are modelled
as natural numbers (ticks of a wall clock).  The shared playback state
(`Internal`) is an explicit record; atomics and mutexes become plain fields,
with lock-acquisition success supplied as an oracle field of the state.
-/

namespace IcedVideoPlayer

/-- A two-dimensional size, as `iced::Size<f32>` (modelled over `ℚ`). -/
structure Size where
  width : ℚ
  height : ℚ
  deriving DecidableEq, Repr

/-- A rectangle, as `iced::Rectangle<f32>` (modelled over `ℚ`). -/
structure Rect where
  x : ℚ
  y : ℚ
  width : ℚ
  height : ℚ
  deriving DecidableEq, Repr

/-- Rust `Rectangle::center_x`: `self.x + self.width / 2.0`. -/
def Rect.center_x (r : Rect) : ℚ := r.x + r.width / 2

/-- Rust `Rectangle::center_y`: `self.y + self.height / 2.0`. -/
def Rect.center_y (r : Rect) : ℚ := r.y + r.height / 2

/-- The `iced::ContentFit` enum: the fit policy for scaling content into a container. -/
inductive ContentFit where
  | contain
  | cover
  | fill
  | none
  | scaleDown
  deriving DecidableEq, Repr

/-- Modelled from the spec: the host UI framework's fit-policy application
`ContentFit::fit(content, container)` (the framework itself is outside
`src/`).  Per the spec's glossary and §8: `contain` preserves aspect ratio
with the result inside the container and one axis equal; `cover` fills the
container preserving aspect ratio; `fill` stretches to the container;
`none` keeps the natural content size; `scaleDown` is `contain` except it
never enlarges the content. -/
def ContentFit.fit (policy : ContentFit) (content container : Size) : Size :=
  match policy with
  | .contain =>
      if container.width / container.height < content.width / content.height then
        ⟨container.width, content.height * container.width / content.width⟩
      else
        ⟨content.width * container.height / content.height, container.height⟩
  | .cover =>
      if container.width / container.height > content.width / content.height then
        ⟨container.width, content.height * container.width / content.width⟩
      else
        ⟨content.width * container.height / content.height, container.height⟩
  | .fill => container
  | .none => content
  | .scaleDown =>
      if content.width ≤ container.width ∧ content.height ≤ container.height then
        content
      else if container.width / container.height < content.width / content.height then
        ⟨container.width, content.height * container.width / content.width⟩
      else
        ⟨content.width * container.height / content.height, container.height⟩

/-- The `iced::Length` enum: the per-axis length policy of a widget. -/
inductive Length where
  | fill
  | fillPortion (factor : ℕ)
  | shrink
  | fixed (amount : ℚ)
  deriving DecidableEq, Repr

/-- Layout limits, as `iced::advanced::layout::Limits` (a min and max size). -/
structure Limits where
  minWidth : ℚ
  maxWidth : ℚ
  minHeight : ℚ
  maxHeight : ℚ
  deriving DecidableEq, Repr

/-- Rust `f32::clamp(lo, hi)`: `min(max(x, lo), hi)`. -/
def clampQ (x lo hi : ℚ) : ℚ := min (max x lo) hi

/-- Modelled from the spec: the host framework's `Limits::resolve(width,
height, intrinsic_size)` (outside `src/`).  Per the spec §4.1, the raw box
size comes from the constraints and the two length policies: a fill axis
takes the maximum limit, a fixed axis clamps its amount to the limits, and a
shrink axis takes the intrinsic content size clamped to the limits. -/
def Limits.resolve (l : Limits) (width height : Length) (intrinsic : Size) : Size :=
  { width :=
      match width with
      | .fill => l.maxWidth
      | .fillPortion _ => l.maxWidth
      | .fixed amount => clampQ amount l.minWidth l.maxWidth
      | .shrink => clampQ intrinsic.width l.minWidth l.maxWidth
    height :=
      match height with
      | .fill => l.maxHeight
      | .fillPortion _ => l.maxHeight
      | .fixed amount => clampQ amount l.minHeight l.maxHeight
      | .shrink => clampQ intrinsic.height l.minHeight l.maxHeight }

/-- The widget's configuration: fit policy, length policies, and which of the
optional callbacks are registered (`VideoPlayer` builder fields; the
callbacks are modelled by their presence, their messages by `AppMsg`). -/
structure VideoPlayer where
  content_fit : ContentFit
  width : Length
  height : Length
  on_end_of_stream : Bool
  on_new_frame : Bool
  on_subtitle_text : Bool
  on_error : Bool
  on_missing_plugin : Bool
  on_warning : Bool
  deriving DecidableEq, Repr

/-- Source `VideoPlayer::layout` (src/video_player.rs lines 169-193): resolve the
raw box size from the limits and the two length policies, fit the natural
video size into it, then per axis take `min(raw, full)` when that axis's
length policy is `Shrink` and `raw` otherwise. -/
def VideoPlayer.layout (vp : VideoPlayer) (videoWidth videoHeight : ℚ)
    (limits : Limits) : Size :=
  let image_size : Size := ⟨videoWidth, videoHeight⟩
  let raw_size := limits.resolve vp.width vp.height image_size
  let full_size := vp.content_fit.fit image_size raw_size
  { width :=
      match vp.width with
      | .shrink => min raw_size.width full_size.width
      | _ => raw_size.width
    height :=
      match vp.height with
      | .shrink => min raw_size.height full_size.height
      | _ => raw_size.height }

/-- The geometric part of `VideoPlayer::draw` (src/video_player.rs lines
208-228): the `drawing_bounds` rectangle painted for a video of natural size
`imageWidth × imageHeight` inside `bounds`.  For `ContentFit::None` the
position adds half the difference between the natural size and the fitted
size to the bounds origin; for every other policy it centers the scaled
final size at the bounds' center. -/
def drawingBounds (content_fit : ContentFit) (imageWidth imageHeight : ℚ)
    (bounds : Rect) : Rect :=
  let image_size : Size := ⟨imageWidth, imageHeight⟩
  let adjusted_fit := content_fit.fit image_size ⟨bounds.width, bounds.height⟩
  let scaleX := adjusted_fit.width / image_size.width
  let scaleY := adjusted_fit.height / image_size.height
  let final_size : Size := ⟨image_size.width * scaleX, image_size.height * scaleY⟩
  let position : ℚ × ℚ :=
    match content_fit with
    | .none =>
        (bounds.x + (image_size.width - adjusted_fit.width) / 2,
         bounds.y + (image_size.height - adjusted_fit.height) / 2)
    | _ =>
        (bounds.center_x - final_size.width / 2,
         bounds.center_y - final_size.height / 2)
  ⟨position.1, position.2, final_size.width, final_size.height⟩

/-- GStreamer message classes relevant to the widget (`gst::MessageType`). -/
inductive MsgType where
  | error
  | eos
  | warning
  | element
  | other
  deriving DecidableEq, Repr

/-- A bus status event (`gst::Message`, viewed through `msg.view()`).
Causes and payloads are abstracted to naturals; an `element` message records
whether `MissingPluginMessage::is` holds of it. -/
inductive GstMsg where
  | error (cause : ℕ)
  | eos
  | warning (cause : ℕ)
  | element (missing_plugin : Bool) (payload : ℕ)
  | other
  deriving DecidableEq, Repr

/-- The message class of a bus event. -/
def GstMsg.msgType : GstMsg → MsgType
  | .error _ => .error
  | .eos => .eos
  | .warning _ => .warning
  | .element _ _ => .element
  | .other => .other

/-- The filter the widget passes to `bus.pop_filtered` at
src/video_player.rs line 310: `&[gst::MessageType::Error, gst::MessageType::Eos]`. -/
def busFilter : List MsgType := [.error, .eos]

/-- GStreamer `gst_bus_pop_filtered`: returns the first queued message whose
class is in `allowed`, discarding every earlier non-matching message; when no
queued message matches, all are discarded and `none` is returned. -/
def popFiltered (allowed : List MsgType) : List GstMsg → Option (GstMsg × List GstMsg)
  | [] => none
  | m :: rest =>
      if m.msgType ∈ allowed then some (m, rest) else popFiltered allowed rest

/-- Application messages the widget can publish to the shell, one per
registered callback (`shell.publish(...)` sites in `on_event`). -/
inductive AppMsg where
  | endOfStream
  | newFrame
  | subtitleText (text : Option ℕ)
  | errorCause (cause : ℕ)
  | missingPlugin (payload : ℕ)
  | warningCause (cause : ℕ)
  deriving DecidableEq, Repr

/-- The shared playback state behind `self.video.write()` (the `Internal`
struct of the crate's `video` module, which is outside `src/`; its fields and
ownership are modelled from the spec's SharedPlaybackState, §3).  Atomics
(`upload_frame`, `upload_text`) are plain booleans; for each mutex the state
carries the protected value together with a `..._lock_ok` oracle saying
whether this tick's lock or try-lock acquisition succeeds; `seek_ok` is the
oracle for whether a `restart_stream()` seek succeeds. -/
structure Internal where
  width : ℕ
  height : ℕ
  restart_stream : Bool
  is_eos : Bool
  paused : Bool
  looping : Bool
  bus : List GstMsg
  upload_frame : Bool
  frame : List ℕ
  frame_lock_ok : Bool
  last_frame_time : ℕ
  last_frame_time_lock_ok : Bool
  upload_text : Bool
  subtitle_text : Option ℕ
  subtitle_text_lock_ok : Bool
  handle_opt : Option (ℕ × ℕ × List ℕ)
  seek_ok : Bool
  deriving DecidableEq, Repr

/-- A repaint request issued through `shell.request_redraw`: either at the
next frame, or at `Instant::now()` plus a delay in milliseconds. -/
inductive RedrawRequest where
  | nextFrame
  | afterMillis (delay : ℕ)
  deriving DecidableEq, Repr

/-- A UI event delivered to `on_event`: a window redraw-requested tick, or
anything else. -/
inductive UiEvent where
  | redrawRequested
  | other
  deriving DecidableEq, Repr

/-- The drain loop of `on_event` (src/video_player.rs lines 308-344):
`while let Some(msg) = bus.pop_filtered(&[Error, Eos])`, with the loop body's
`match msg.view()`.  Arguments: the bus queue and the running values of the
local variables `restart_stream` and `eos_pause`; result: the published
messages in order, and the final values of the two locals.  A message whose
class is not in `busFilter` is discarded by `pop_filtered` without entering
the loop body. -/
def drainBus (vp : VideoPlayer) (looping : Bool) :
    List GstMsg → Bool → Bool → List AppMsg × Bool × Bool
  | [], restart_stream, eos_pause => ([], restart_stream, eos_pause)
  | m :: rest, restart_stream, eos_pause =>
      if m.msgType ∈ busFilter then
        match m with
        | .error cause =>
            let pubs := if vp.on_error then [AppMsg.errorCause cause] else []
            let r := drainBus vp looping rest restart_stream eos_pause
            (pubs ++ r.1, r.2)
        | .element missing_plugin payload =>
            let pubs :=
              if missing_plugin && vp.on_missing_plugin then
                [AppMsg.missingPlugin payload]
              else []
            let r := drainBus vp looping rest restart_stream eos_pause
            (pubs ++ r.1, r.2)
        | .eos =>
            let pubs := if vp.on_end_of_stream then [AppMsg.endOfStream] else []
            let restart1 := if looping then true else restart_stream
            let eos1 := if looping then eos_pause else true
            let r := drainBus vp looping rest restart1 eos1
            (pubs ++ r.1, r.2)
        | .warning cause =>
            let pubs := if vp.on_warning then [AppMsg.warningCause cause] else []
            let r := drainBus vp looping rest restart_stream eos_pause
            (pubs ++ r.1, r.2)
        | .other =>
            drainBus vp looping rest restart_stream eos_pause
      else
        drainBus vp looping rest restart_stream eos_pause

/-- The outcome of one `on_event` call: the updated shared state, the
messages published to the shell in order, whether a `restart_stream()`
seek-to-start was performed, the repaint request issued (if any), and the
returned event status (`true` = `Status::Captured`). -/
structure TickResult where
  inner : Internal
  published : List AppMsg
  seekPerformed : Bool
  redraw : Option RedrawRequest
  captured : Bool
  deriving DecidableEq, Repr

/-- Source `VideoPlayer::on_event` (src/video_player.rs lines 285-380).  On a
redraw tick with `restart_stream || (!is_eos && !paused())`: clear
`restart_stream` (remembering it in the loop-local), drain the bus, then
either restart the stream (seek; a failed seek is logged and changes
nothing — modelled from the spec §7(e)) or, only if no restart is pending,
apply `eos_pause` by setting `is_eos` and `paused`; then publish `new_frame`
if `upload_frame` is still set, swap-and-publish subtitles when that callback
exists, and request the next frame.  Otherwise request a repaint 32 ms from
now.  Non-redraw events are ignored. -/
def VideoPlayer.on_event (vp : VideoPlayer) (inner : Internal) (event : UiEvent) :
    TickResult :=
  match event with
  | .other =>
      { inner := inner, published := [], seekPerformed := false,
        redraw := none, captured := false }
  | .redrawRequested =>
      if inner.restart_stream || (!inner.is_eos && !inner.paused) then
        let restart0 := inner.restart_stream
        let inner1 := { inner with restart_stream := false }
        let dr := drainBus vp inner.looping inner.bus restart0 false
        let pubs := dr.1
        let restart1 := dr.2.1
        let eos_pause := dr.2.2
        let inner2 := { inner1 with bus := [] }
        let inner3 :=
          if restart1 then inner2
          else if eos_pause then { inner2 with is_eos := true, paused := true }
          else inner2
        let pubs1 :=
          pubs ++ (if inner3.upload_frame && vp.on_new_frame then [AppMsg.newFrame] else [])
        let inner4 :=
          if vp.on_subtitle_text then { inner3 with upload_text := false } else inner3
        let pubs2 :=
          if vp.on_subtitle_text && (inner3.upload_text && inner3.subtitle_text_lock_ok) then
            pubs1 ++ [AppMsg.subtitleText inner3.subtitle_text]
          else pubs1
        { inner := inner4, published := pubs2, seekPerformed := restart1,
          redraw := some .nextFrame, captured := true }
      else
        { inner := inner, published := [], seekPerformed := false,
          redraw := some (.afterMillis 32), captured := true }

/-- Modelled from the spec: the colorspace conversion `yuv_to_rgba` (in the
crate's `video` module, outside `src/`) is "a pure, stateless transform
taking stride/plane layout and producing a packed buffer" (§4.2); its
internal math is explicitly out of scope, so any fixed pure function of the
buffer and dimensions producing a packed 4-byte-per-pixel buffer serves. -/
def yuv_to_rgba (yuv : List ℕ) (width height : ℕ) : List ℕ :=
  (List.range (width * height)).flatMap (fun i => [yuv.getD i 0, yuv.getD i 0, yuv.getD i 0, 255])

/-- The outcome of one `draw` call on the converted (non-`wgpu`) path: the
updated shared state, the a/v offset reported via `set_av_offset` (if any),
the image handle passed to `renderer.draw_image` (if any), and the computed
paint rectangle. -/
structure DrawResult where
  inner : Internal
  av_offset_report : Option ℕ
  drawn_image : Option (ℕ × ℕ × List ℕ)
  drawing_bounds : Rect
  deriving DecidableEq, Repr

/-- Source `VideoPlayer::draw` (src/video_player.rs lines 195-283, converted
path): compute the paint rectangle, swap `upload_frame` to false; when the
swap yielded true, report `av_offset = now - last_frame_time` (substituting
`now` for the timestamp if its lock fails) and replace `handle_opt` by the
RGBA conversion of the locked frame, or by `None` when the frame lock fails;
finally draw the cached handle if one is present.  `now` is the current
instant. -/
def VideoPlayer.draw (vp : VideoPlayer) (inner : Internal) (now : ℕ)
    (bounds : Rect) : DrawResult :=
  let db := drawingBounds vp.content_fit (inner.width : ℚ) (inner.height : ℚ) bounds
  let upload_frame := inner.upload_frame
  let inner1 := { inner with upload_frame := false }
  let report :=
    if upload_frame then
      let last_frame_time :=
        if inner.last_frame_time_lock_ok then inner.last_frame_time else now
      some (now - last_frame_time)
    else none
  let inner2 :=
    if upload_frame then
      { inner1 with
          handle_opt :=
            if inner.frame_lock_ok then
              some (inner.width, inner.height,
                yuv_to_rgba inner.frame inner.width inner.height)
            else none }
    else inner1
  { inner := inner2, av_offset_report := report,
    drawn_image := inner2.handle_opt, drawing_bounds := db }

/-- Modelled from the spec: the producer's `write_frame` (decode pipeline,
outside `src/`): overwrites the frame buffer, records the wall-clock time the
frame was made ready, and sets `frame_ready` (`upload_frame`) true (§3, §6). -/
def write_frame (inner : Internal) (buf : List ℕ) (time : ℕ) : Internal :=
  { inner with frame := buf, upload_frame := true, last_frame_time := time }

/-- The frame-claim protocol `try_claim_frame` of spec §4.2, as inlined in
`VideoPlayer::draw` (src/video_player.rs lines 230 and 255-259): atomically
swap `upload_frame` to false; if it was true, attempt the frame lock and
clone the buffer (a failed lock yields no frame); otherwise yield none. -/
def try_claim_frame (inner : Internal) : Option (List ℕ) × Internal :=
  let was := inner.upload_frame
  let inner1 := { inner with upload_frame := false }
  if was && inner.frame_lock_ok then (some inner.frame, inner1) else (none, inner1)

/-- Whether the bus queue holds an `Eos` message. -/
def busHasEos : List GstMsg → Bool
  | [] => false
  | .eos :: _ => true
  | _ :: rest => busHasEos rest

theorem drainBus_restart_eq (vp : VideoPlayer) (looping : Bool) (bus : List GstMsg) :
    ∀ rs ep : Bool,
      (drainBus vp looping bus rs ep).2.1 = (rs || (looping && busHasEos bus)) := by
  induction bus with
  | nil => intro rs ep; simp [drainBus, busHasEos]
  | cons m rest ih =>
      intro rs ep
      cases m <;>
        (simp [drainBus, busFilter, GstMsg.msgType, busHasEos, ih];
          try (cases looping <;> cases rs <;> simp [ih]))

theorem drainBus_eos_pause_eq (vp : VideoPlayer) (looping : Bool) (bus : List GstMsg) :
    ∀ rs ep : Bool,
      (drainBus vp looping bus rs ep).2.2 = (ep || (!looping && busHasEos bus)) := by
  induction bus with
  | nil => intro rs ep; simp [drainBus, busHasEos]
  | cons m rest ih =>
      intro rs ep
      cases m <;>
        (simp [drainBus, busFilter, GstMsg.msgType, busHasEos, ih];
          try (cases looping <;> cases ep <;> simp [ih]))

theorem drainBus_no_subtitle (vp : VideoPlayer) (looping : Bool) (bus : List GstMsg) :
    ∀ (rs ep : Bool) (t : Option ℕ),
      AppMsg.subtitleText t ∉ (drainBus vp looping bus rs ep).1 := by
  induction bus with
  | nil => intro rs ep t; simp [drainBus]
  | cons m rest ih =>
      intro rs ep t
      cases m with
      | error cause =>
          simp only [drainBus, busFilter, GstMsg.msgType]
          simp [List.mem_append, ih]
      | eos =>
          simp only [drainBus, busFilter, GstMsg.msgType]
          simp [List.mem_append, ih]
      | warning cause =>
          simp only [drainBus, busFilter, GstMsg.msgType]
          simp [List.mem_append, ih]
      | element missing_plugin payload =>
          simp only [drainBus, busFilter, GstMsg.msgType]
          simp [List.mem_append, ih]
      | other =>
          simp only [drainBus, busFilter, GstMsg.msgType]
          simp [ih]

theorem drainBus_no_warning (vp : VideoPlayer) (looping : Bool) (bus : List GstMsg) :
    ∀ (rs ep : Bool) (c : ℕ),
      AppMsg.warningCause c ∉ (drainBus vp looping bus rs ep).1 := by
  induction bus with
  | nil => intro rs ep c; simp [drainBus]
  | cons m rest ih =>
      intro rs ep c
      cases m with
      | error cause =>
          simp only [drainBus, busFilter, GstMsg.msgType]
          simp [List.mem_append, ih]
      | eos =>
          simp only [drainBus, busFilter, GstMsg.msgType]
          simp [List.mem_append, ih]
      | warning cause =>
          simp only [drainBus, busFilter, GstMsg.msgType]
          simp [List.mem_append, ih]
      | element missing_plugin payload =>
          simp only [drainBus, busFilter, GstMsg.msgType]
          simp [List.mem_append, ih]
      | other =>
          simp only [drainBus, busFilter, GstMsg.msgType]
          simp [ih]

theorem drainBus_no_missing_plugin (vp : VideoPlayer) (looping : Bool)
    (bus : List GstMsg) :
    ∀ (rs ep : Bool) (p : ℕ),
      AppMsg.missingPlugin p ∉ (drainBus vp looping bus rs ep).1 := by
  induction bus with
  | nil => intro rs ep p; simp [drainBus]
  | cons m rest ih =>
      intro rs ep p
      cases m with
      | error cause =>
          simp only [drainBus, busFilter, GstMsg.msgType]
          simp [List.mem_append, ih]
      | eos =>
          simp only [drainBus, busFilter, GstMsg.msgType]
          simp [List.mem_append, ih]
      | warning cause =>
          simp only [drainBus, busFilter, GstMsg.msgType]
          simp [List.mem_append, ih]
      | element missing_plugin payload =>
          simp only [drainBus, busFilter, GstMsg.msgType]
          simp [List.mem_append, ih]
      | other =>
          simp only [drainBus, busFilter, GstMsg.msgType]
          simp [ih]

theorem drawingBounds_centered (fit : ContentFit) (h : fit ≠ ContentFit.none)
    (iw ih : ℚ) (bounds : Rect) :
    (drawingBounds fit iw ih bounds).x + (drawingBounds fit iw ih bounds).width / 2
      = bounds.center_x
    ∧ (drawingBounds fit iw ih bounds).y + (drawingBounds fit iw ih bounds).height / 2
      = bounds.center_y := by
  cases fit with
  | none => exact absurd rfl h
  | contain => refine ⟨?_, ?_⟩ <;> (simp only [drawingBounds]; ring)
  | cover => refine ⟨?_, ?_⟩ <;> (simp only [drawingBounds]; ring)
  | fill => refine ⟨?_, ?_⟩ <;> (simp only [drawingBounds]; ring)
  | scaleDown => refine ⟨?_, ?_⟩ <;> (simp only [drawingBounds]; ring)

/-- A sample widget configuration: every callback registered, `Fill` width,
`Shrink` height, the default `Contain` fit. -/
def vpAll : VideoPlayer :=
  { content_fit := .contain, width := .fill, height := .shrink,
    on_end_of_stream := true, on_new_frame := true, on_subtitle_text := true,
    on_error := true, on_missing_plugin := true, on_warning := true }

/-- The sample widget built without a subtitle callback. -/
def vpNoSub : VideoPlayer := { vpAll with on_subtitle_text := false }

/-- A baseline playing state: 1920 × 1080 stream, not paused, not at end of
stream, empty bus, no pending frame or subtitle, all locks available. -/
def inner0 : Internal :=
  { width := 1920, height := 1080, restart_stream := false, is_eos := false,
    paused := false, looping := false, bus := [], upload_frame := false,
    frame := [], frame_lock_ok := true, last_frame_time := 0,
    last_frame_time_lock_ok := true, upload_text := false,
    subtitle_text := none, subtitle_text_lock_ok := true,
    handle_opt := none, seek_ok := true }

/-- A state with an externally requested restart and a queued `Eos`. -/
def innerRestart : Internal :=
  { inner0 with restart_stream := true, bus := [GstMsg.eos] }

/-- A state whose bus holds `[Warning, Error, Eos]` in that order. -/
def innerWEE : Internal :=
  { inner0 with bus := [GstMsg.warning 5, GstMsg.error 7, GstMsg.eos] }

/-- A sample cached image handle. -/
def handle0 : ℕ × ℕ × List ℕ := (1, 1, [9, 9, 9, 255])

/-- A state with a fresh frame ready whose frame-buffer lock is unavailable,
holding a previously cached image handle. -/
def innerLockFail : Internal :=
  { inner0 with
    upload_frame := true, frame_lock_ok := false,
    handle_opt := some handle0 }

/-- A state with a fresh frame ready (written at time 7) and all locks
available. -/
def innerFrameReady : Internal :=
  { inner0 with
    upload_frame := true, frame := [1, 2, 3, 4],
    last_frame_time := 7 }

/-- A paused but otherwise baseline state. -/
def innerPaused : Internal := { inner0 with paused := true }

/-- A baseline state with fresh subtitle text pending. -/
def innerSubReady : Internal := { inner0 with upload_text := true }

/-- C1: in every active tick's bus drain, restart takes precedence over
`eos_pause`: if `restart_requested` was set before the drain or an
`EndOfStream` event with `looping = true` set it during the drain, the
widget clears `restart_requested` before the seek-to-start (here: the
post-state flag is false while a seek was performed) and does not set
`is_eos` or `paused` this tick even if `eos_pause` was also set; only when
no restart is pending and `eos_pause` was set does it set `is_eos = true`
and `paused = true`. -/
theorem C1_restart_takes_precedence (vp : VideoPlayer) (inner : Internal)
    (hactive : (inner.restart_stream || (!inner.is_eos && !inner.paused)) = true) :
    ((inner.restart_stream || (inner.looping && busHasEos inner.bus)) = true →
        (vp.on_event inner .redrawRequested).seekPerformed = true
        ∧ (vp.on_event inner .redrawRequested).inner.restart_stream = false
        ∧ (vp.on_event inner .redrawRequested).inner.is_eos = inner.is_eos
        ∧ (vp.on_event inner .redrawRequested).inner.paused = inner.paused)
    ∧ ((inner.restart_stream || (inner.looping && busHasEos inner.bus)) = false →
        (vp.on_event inner .redrawRequested).seekPerformed = false
        ∧ ((!inner.looping && busHasEos inner.bus) = true →
            (vp.on_event inner .redrawRequested).inner.is_eos = true
            ∧ (vp.on_event inner .redrawRequested).inner.paused = true)
        ∧ ((!inner.looping && busHasEos inner.bus) = false →
            (vp.on_event inner .redrawRequested).inner.is_eos = inner.is_eos
            ∧ (vp.on_event inner .redrawRequested).inner.paused = inner.paused)) := by
  cases hrs : inner.restart_stream <;>
    cases hl : inner.looping <;>
    cases he : busHasEos inner.bus <;>
    cases hsub : vp.on_subtitle_text <;>
    simp_all [VideoPlayer.on_event, drainBus_restart_eq, drainBus_eos_pause_eq,
      apply_ite Internal.restart_stream, apply_ite Internal.is_eos,
      apply_ite Internal.paused]

/-- C1 witness: a pre-existing restart request with a queued `Eos` and
`looping = false` performs the seek, leaves the flag cleared and does not
pause. -/
theorem C1_witness :
    (vpAll.on_event innerRestart .redrawRequested).seekPerformed = true
    ∧ (vpAll.on_event innerRestart .redrawRequested).inner.restart_stream = false
    ∧ (vpAll.on_event innerRestart .redrawRequested).inner.is_eos = innerRestart.is_eos
    ∧ (vpAll.on_event innerRestart .redrawRequested).inner.paused = innerRestart.paused :=
  (C1_restart_takes_precedence vpAll innerRestart (by decide)).1 (by decide)

/-- C2 (code bug): the drain is supposed to process Error, Eos, Warning and
Element events, but `pop_filtered` is called with only `[Error, Eos]`
(line 310), so GStreamer discards Warning and Element messages: for the bus
`[Warning, Error, Eos]` only the error and end-of-stream callbacks fire (in
order), the warning callback never does, and in general no drain ever
publishes a warning or missing-plugin message even though `on_event` has
match arms for both. -/
theorem C2_warning_and_plugin_callbacks_dead :
    ((vpAll.on_event innerWEE .redrawRequested).published
        = [AppMsg.errorCause 7, AppMsg.endOfStream]
      ∧ AppMsg.warningCause 5 ∉ (vpAll.on_event innerWEE .redrawRequested).published)
    ∧ ∀ (vp : VideoPlayer) (looping : Bool) (bus : List GstMsg) (rs ep : Bool) (c : ℕ),
        AppMsg.warningCause c ∉ (drainBus vp looping bus rs ep).1
        ∧ AppMsg.missingPlugin c ∉ (drainBus vp looping bus rs ep).1 :=
  ⟨⟨by decide, by decide⟩, fun vp looping bus rs ep c =>
    ⟨drainBus_no_warning vp looping bus rs ep c,
     drainBus_no_missing_plugin vp looping bus rs ep c⟩⟩

/-- C3: on a redraw tick the widget runs active processing iff
`restart_requested || (!is_eos && !paused)`; when active it drains the bus
and requests the next repaint at the next frame, otherwise it changes
nothing, publishes nothing, performs no seek, and requests the next repaint
32 milliseconds from now. -/
theorem C3_active_gate_and_redraw_cadence (vp : VideoPlayer) (inner : Internal) :
    ((inner.restart_stream || (!inner.is_eos && !inner.paused)) = true →
        (vp.on_event inner .redrawRequested).redraw = some RedrawRequest.nextFrame
        ∧ (vp.on_event inner .redrawRequested).inner.bus = [])
    ∧ ((inner.restart_stream || (!inner.is_eos && !inner.paused)) = false →
        (vp.on_event inner .redrawRequested).redraw
          = some (RedrawRequest.afterMillis 32)
        ∧ (vp.on_event inner .redrawRequested).inner = inner
        ∧ (vp.on_event inner .redrawRequested).published = []
        ∧ (vp.on_event inner .redrawRequested).seekPerformed = false) := by
  constructor
  · intro h
    simp [VideoPlayer.on_event, h, apply_ite Internal.bus]
  · intro h
    simp [VideoPlayer.on_event, h]

/-- C3 witness: the baseline playing state is active and gets a next-frame
repaint; the paused state is idle and gets a 32 ms poll with nothing else
happening. -/
theorem C3_witness :
    ((vpAll.on_event inner0 .redrawRequested).redraw = some RedrawRequest.nextFrame
      ∧ (vpAll.on_event inner0 .redrawRequested).inner.bus = [])
    ∧ (vpAll.on_event innerPaused .redrawRequested).redraw
        = some (RedrawRequest.afterMillis 32) :=
  ⟨(C3_active_gate_and_redraw_cadence vpAll inner0).1 (by decide),
   ((C3_active_gate_and_redraw_cadence vpAll innerPaused).2 (by decide)).1⟩

/-- C4: a ready frame is claimed at most once per producer write: after
`write_frame`, the flag is set; the first `try_claim_frame` swaps it to
false and returns the frame, and a second consecutive claim with no
intervening write returns none. -/
theorem C4_frame_claimed_at_most_once (inner : Internal) (buf : List ℕ) (t : ℕ)
    (hlock : inner.frame_lock_ok = true) :
    (write_frame inner buf t).upload_frame = true
    ∧ (try_claim_frame (write_frame inner buf t)).1 = some buf
    ∧ (try_claim_frame (write_frame inner buf t)).2.upload_frame = false
    ∧ (try_claim_frame (try_claim_frame (write_frame inner buf t)).2).1 = none := by
  simp [write_frame, try_claim_frame, hlock]

/-- C4 witness: writing a frame into the baseline state, the first claim
returns it and the second returns none. -/
theorem C4_witness :
    (write_frame inner0 [1, 2] 3).upload_frame = true
    ∧ (try_claim_frame (write_frame inner0 [1, 2] 3)).1 = some [1, 2]
    ∧ (try_claim_frame (write_frame inner0 [1, 2] 3)).2.upload_frame = false
    ∧ (try_claim_frame (try_claim_frame (write_frame inner0 [1, 2] 3)).2).1 = none :=
  C4_frame_claimed_at_most_once inner0 [1, 2] 3 rfl

/-- C5: for every fit policy other than `None` and all natural sizes and
paint bounds, the paint rectangle of `draw` is centered in the bounds
(`paint_offset + final_size / 2` equals the bounds' center); concretely,
natural size 1920 × 1080 in 800 × 800 bounds with `Contain` yields final
size 800 × 450 at offset x = 0, y = 175. -/
theorem C5_paint_rect_centered (fit : ContentFit) (h : fit ≠ ContentFit.none)
    (iw ih : ℚ) (bounds : Rect) :
    ((drawingBounds fit iw ih bounds).x + (drawingBounds fit iw ih bounds).width / 2
        = bounds.center_x
      ∧ (drawingBounds fit iw ih bounds).y
          + (drawingBounds fit iw ih bounds).height / 2
        = bounds.center_y)
    ∧ drawingBounds ContentFit.contain 1920 1080 ⟨0, 0, 800, 800⟩
        = ⟨0, 175, 800, 450⟩ :=
  ⟨drawingBounds_centered fit h iw ih bounds, by
    norm_num [drawingBounds, ContentFit.fit, Rect.center_x, Rect.center_y]⟩

/-- C5 witness: the centering equations and the concrete `Contain` instance
at 1920 × 1080 in 800 × 800 bounds. -/
theorem C5_witness :
    ((drawingBounds ContentFit.contain 1920 1080 ⟨0, 0, 800, 800⟩).x
        + (drawingBounds ContentFit.contain 1920 1080 ⟨0, 0, 800, 800⟩).width / 2
      = (Rect.mk 0 0 800 800).center_x
      ∧ (drawingBounds ContentFit.contain 1920 1080 ⟨0, 0, 800, 800⟩).y
          + (drawingBounds ContentFit.contain 1920 1080 ⟨0, 0, 800, 800⟩).height / 2
        = (Rect.mk 0 0 800 800).center_y)
    ∧ drawingBounds ContentFit.contain 1920 1080 ⟨0, 0, 800, 800⟩
        = ⟨0, 175, 800, 450⟩ :=
  C5_paint_rect_centered ContentFit.contain (by decide) 1920 1080 ⟨0, 0, 800, 800⟩

/-- C6 counterexample: for `ContentFit::None`, natural size 1920 × 1080 and
bounds 800 × 800 at the origin, the natural-size image is NOT centered
against the bounds: `position + natural_size / 2` misses the bounds' center
(the code's offset is half of `natural - fitted`, which is zero for `None`,
so the image sits at the bounds' top-left). -/
theorem C6_counterexample :
    ¬ ((drawingBounds ContentFit.none 1920 1080 ⟨0, 0, 800, 800⟩).x + 1920 / 2
          = (Rect.mk 0 0 800 800).center_x
        ∧ (drawingBounds ContentFit.none 1920 1080 ⟨0, 0, 800, 800⟩).y + 1080 / 2
          = (Rect.mk 0 0 800 800).center_y) := by
  intro hc
  have hx := hc.1
  norm_num [drawingBounds, ContentFit.fit, Rect.center_x] at hx

/-- C6 (amended): for the `None` fit policy the position adds half the
unscaled difference between the natural size and the fitted size to the
bounds origin; since `None` fits to the natural size itself, that offset is
zero and the image is anchored at the bounds' top-left corner (not centered
in the bounds).  For every other fit policy the position centers the scaled
final size at the bounds' center point. -/
theorem C6_positioning (iw ih : ℚ) (bounds : Rect) :
    ((drawingBounds ContentFit.none iw ih bounds).x = bounds.x
      ∧ (drawingBounds ContentFit.none iw ih bounds).y = bounds.y)
    ∧ ∀ fit : ContentFit, fit ≠ ContentFit.none →
        (drawingBounds fit iw ih bounds).x
            + (drawingBounds fit iw ih bounds).width / 2
          = bounds.center_x
        ∧ (drawingBounds fit iw ih bounds).y
            + (drawingBounds fit iw ih bounds).height / 2
          = bounds.center_y := by
  refine ⟨⟨?_, ?_⟩, fun fit h => drawingBounds_centered fit h iw ih bounds⟩ <;>
    (simp only [drawingBounds, ContentFit.fit]; ring)

/-- C6 witness: at 1920 × 1080 in 800 × 800 bounds, `None` anchors at the
origin while `Fill` centers. -/
theorem C6_witness :
    ((drawingBounds ContentFit.none 1920 1080 ⟨0, 0, 800, 800⟩).x
        = (Rect.mk 0 0 800 800).x
      ∧ (drawingBounds ContentFit.none 1920 1080 ⟨0, 0, 800, 800⟩).y
        = (Rect.mk 0 0 800 800).y)
    ∧ ((drawingBounds ContentFit.fill 1920 1080 ⟨0, 0, 800, 800⟩).x
          + (drawingBounds ContentFit.fill 1920 1080 ⟨0, 0, 800, 800⟩).width / 2
        = (Rect.mk 0 0 800 800).center_x
      ∧ (drawingBounds ContentFit.fill 1920 1080 ⟨0, 0, 800, 800⟩).y
          + (drawingBounds ContentFit.fill 1920 1080 ⟨0, 0, 800, 800⟩).height / 2
        = (Rect.mk 0 0 800 800).center_y) :=
  ⟨(C6_positioning 1920 1080 ⟨0, 0, 800, 800⟩).1,
   (C6_positioning 1920 1080 ⟨0, 0, 800, 800⟩).2 ContentFit.fill (by decide)⟩

/-- C7: layout first resolves the raw box size from the limits and the two
length policies, then fits the natural size into it; per axis independently
the final size is `min(raw, full)` on a `Shrink` axis and `raw` otherwise,
so a shrink axis never exceeds the content-fitted size on that axis even
when the other axis does. -/
theorem C7_layout_two_pass (vp : VideoPlayer) (vw vh : ℚ) (limits : Limits) :
    ((vp.layout vw vh limits).width
        = (if vp.width = Length.shrink
            then min (limits.resolve vp.width vp.height ⟨vw, vh⟩).width
                (vp.content_fit.fit ⟨vw, vh⟩
                  (limits.resolve vp.width vp.height ⟨vw, vh⟩)).width
            else (limits.resolve vp.width vp.height ⟨vw, vh⟩).width)
      ∧ (vp.layout vw vh limits).height
        = (if vp.height = Length.shrink
            then min (limits.resolve vp.width vp.height ⟨vw, vh⟩).height
                (vp.content_fit.fit ⟨vw, vh⟩
                  (limits.resolve vp.width vp.height ⟨vw, vh⟩)).height
            else (limits.resolve vp.width vp.height ⟨vw, vh⟩).height))
    ∧ (vp.width = Length.shrink →
        (vp.layout vw vh limits).width
          ≤ (vp.content_fit.fit ⟨vw, vh⟩
              (limits.resolve vp.width vp.height ⟨vw, vh⟩)).width)
    ∧ (vp.height = Length.shrink →
        (vp.layout vw vh limits).height
          ≤ (vp.content_fit.fit ⟨vw, vh⟩
              (limits.resolve vp.width vp.height ⟨vw, vh⟩)).height) := by
  cases hw : vp.width <;> cases hh : vp.height <;>
    simp [VideoPlayer.layout, hw, hh, min_le_right]

/-- C7 witness: with `Fill` width and `Shrink` height, 1920 × 1080 content
and 800 × 800 max limits, the shrunk height does not exceed the
content-fitted height even though the filled width does. -/
theorem C7_witness :
    (vpAll.layout 1920 1080 ⟨0, 800, 0, 800⟩).height
      ≤ (vpAll.content_fit.fit ⟨1920, 1080⟩
          (Limits.resolve ⟨0, 800, 0, 800⟩ vpAll.width vpAll.height
            ⟨1920, 1080⟩)).height :=
  (C7_layout_two_pass vpAll 1920 1080 ⟨0, 800, 0, 800⟩).2.2 rfl

/-- C8: whenever a frame is claimed in `draw`, the widget reports
`av_offset = now - last_frame_time`; if the timestamp lock cannot be
acquired it substitutes `now` (a zero offset) instead of failing, and when
no frame is claimed nothing is reported. -/
theorem C8_av_offset_reporting (vp : VideoPlayer) (inner : Internal) (now : ℕ)
    (bounds : Rect) :
    (inner.upload_frame = true → inner.last_frame_time_lock_ok = true →
        (vp.draw inner now bounds).av_offset_report
          = some (now - inner.last_frame_time))
    ∧ (inner.upload_frame = true → inner.last_frame_time_lock_ok = false →
        (vp.draw inner now bounds).av_offset_report = some 0)
    ∧ (inner.upload_frame = false →
        (vp.draw inner now bounds).av_offset_report = none) := by
  refine ⟨fun h1 h2 => ?_, fun h1 h2 => ?_, fun h1 => ?_⟩
  · simp [VideoPlayer.draw, h1, h2]
  · simp [VideoPlayer.draw, h1, h2]
  · simp [VideoPlayer.draw, h1]

/-- C8 witness: a claimed frame written at time 7 drawn at time 10 reports
an offset of 3. -/
theorem C8_witness :
    (vpAll.draw innerFrameReady 10 ⟨0, 0, 800, 800⟩).av_offset_report
      = some (10 - 7) :=
  (C8_av_offset_reporting vpAll innerFrameReady 10 ⟨0, 0, 800, 800⟩).1 rfl rfl

/-- C9 counterexample: with a frame ready, the frame-buffer lock unavailable
and a previously cached image handle, the claim says the cached image is
still available to draw; the code instead draws nothing (the cache is
overwritten with `None`). -/
theorem C9_counterexample :
    ¬ ((vpAll.draw innerLockFail 0 ⟨0, 0, 800, 800⟩).drawn_image = some handle0) := by
  decide

/-- C9 (amended): on the converted render path a successful claim converts
the locked buffer to RGBA and caches it as the handle that is drawn, and
with no claim the previously cached handle is kept and drawn again; but a
claim whose frame-buffer lock fails, while surfacing no error, overwrites
the cache with `None` so nothing is drawn that tick (the previously cached
image is lost rather than redrawn). -/
theorem C9_converted_path (vp : VideoPlayer) (inner : Internal) (now : ℕ)
    (bounds : Rect) :
    (inner.upload_frame = true → inner.frame_lock_ok = true →
        (vp.draw inner now bounds).inner.handle_opt
          = some (inner.width, inner.height,
              yuv_to_rgba inner.frame inner.width inner.height)
        ∧ (vp.draw inner now bounds).drawn_image
          = (vp.draw inner now bounds).inner.handle_opt)
    ∧ (inner.upload_frame = false →
        (vp.draw inner now bounds).inner.handle_opt = inner.handle_opt
        ∧ (vp.draw inner now bounds).drawn_image = inner.handle_opt)
    ∧ (inner.upload_frame = true → inner.frame_lock_ok = false →
        (vp.draw inner now bounds).inner.handle_opt = none
        ∧ (vp.draw inner now bounds).drawn_image = none) := by
  refine ⟨fun h1 h2 => ?_, fun h1 => ?_, fun h1 h2 => ?_⟩
  · simp [VideoPlayer.draw, h1, h2]
  · simp [VideoPlayer.draw, h1]
  · simp [VideoPlayer.draw, h1, h2]

/-- C9 witness: a successful claim caches and draws the RGBA conversion of
the claimed buffer. -/
theorem C9_witness :
    (vpAll.draw innerFrameReady 10 ⟨0, 0, 800, 800⟩).inner.handle_opt
      = some (1920, 1080, yuv_to_rgba [1, 2, 3, 4] 1920 1080)
    ∧ (vpAll.draw innerFrameReady 10 ⟨0, 0, 800, 800⟩).drawn_image
      = (vpAll.draw innerFrameReady 10 ⟨0, 0, 800, 800⟩).inner.handle_opt :=
  (C9_converted_path vpAll innerFrameReady 10 ⟨0, 0, 800, 800⟩).1 rfl rfl

/-- C10: when no subtitle callback is registered, a tick never swaps
`upload_text`, never touches the subtitle text, and never publishes a
subtitle message, so subtitle readiness set by the producer is preserved. -/
theorem C10_subtitle_flag_preserved (vp : VideoPlayer) (inner : Internal)
    (event : UiEvent) (h : vp.on_subtitle_text = false) :
    (vp.on_event inner event).inner.upload_text = inner.upload_text
    ∧ (vp.on_event inner event).inner.subtitle_text = inner.subtitle_text
    ∧ ∀ t : Option ℕ, AppMsg.subtitleText t ∉ (vp.on_event inner event).published := by
  cases event with
  | other => simp [VideoPlayer.on_event]
  | redrawRequested =>
      cases hact : (inner.restart_stream || (!inner.is_eos && !inner.paused)) with
      | false => simp [VideoPlayer.on_event, hact]
      | true =>
          refine ⟨?_, ?_, ?_⟩ <;>
            simp [VideoPlayer.on_event, hact, h, List.mem_append,
              drainBus_no_subtitle, apply_ite Internal.upload_text,
              apply_ite Internal.subtitle_text]

/-- C10 witness: with subtitle text pending and no subtitle callback, an
active tick leaves `upload_text` set. -/
theorem C10_witness :
    (vpNoSub.on_event innerSubReady .redrawRequested).inner.upload_text
      = innerSubReady.upload_text :=
  (C10_subtitle_flag_preserved vpNoSub innerSubReady .redrawRequested rfl).1

end IcedVideoPlayer
